import Mathlib

/-!
Verification of the scenario P&L engine of the Options_Strategy_Tool
repository.

The quote-price resolver (ScenarioRunner.entry_price_from_snapshot), the
scenario grid generator (ScenarioRunner.generate_percent_range) and the
premium-override shift (the tail of compute_pnl in tools/options_pnl.py) are
embedded over the rational numbers, modelling Python float arithmetic as
exact arithmetic.  Option valuation (Black–Scholes under a shocked forward,
ScenarioRunner.market_value_after_move) is embedded over the real numbers,
with the error function defined through the Gaussian integral.  Python code
that can raise is embedded as an Option-valued function, where none stands
for the raised exception.
-/

namespace OptionsStrategyTool

/-! ## Quote-price resolver: ScenarioRunner.entry_price_from_snapshot
(src/scenario_analysis.py, lines 22-139).  The Python method reads
PX_BID / PX_MID / PX_ASK through the safe-float helper `_sf`, normalizes the
triple with BUY/SELL-aware rules, and returns a single price; we return the
normalized triple together with the price, and none when the method raises
ValueError. -/

/-- The float-equality epsilon used by the resolver (EPS = 1e-9 in the
source). -/
def EPS : ℚ := 1 / 1000000000

/-- A raw snapshot field as Python may see it before `_sf`: absent from the
dict, a float NaN, a float plus or minus infinity, a non-numeric object, or a
finite number. -/
inductive RawField where
  | missing
  | nan
  | posInf
  | negInf
  | nonNumeric
  | num (q : ℚ)
deriving DecidableEq

/-- ScenarioRunner._sf: return float(v) if v is numeric and finite, else
None (src/scenario_analysis.py, lines 7-20). -/
def sf (v : RawField) : Option ℚ :=
  match v with
  | .num q => some q
  | _ => none

/-- BUY path, first block (lines 53-66): when BID is missing and ASK exists,
either assume BID = 0 and synthesize MID (MID missing, or MID equals ASK
within EPS), or trust MID and infer BID = max(0, 2*MID - ASK).  Returns the
updated (bid, mid) pair. -/
def buyAdjustBidMid (b m a : Option ℚ) : Option ℚ × Option ℚ :=
  match b, m, a with
  | none, none, some av => (some 0, some ((0 + av) / 2))
  | none, some mv, some av =>
      if |mv - av| ≤ EPS then (some 0, some ((0 + av) / 2))
      else (some (max 0 (2 * mv - av)), some mv)
  | b, m, _ => (b, m)

/-- Shared block (BUY lines 68-70, SELL lines 106-108): when MID is missing
but BID and ASK exist, recompute MID = (BID + ASK) / 2. -/
def recomputeMid (b m a : Option ℚ) : Option ℚ :=
  match m, b, a with
  | none, some bv, some av => some ((bv + av) / 2)
  | m, _, _ => m

/-- BUY path, third block (lines 72-74): when ASK is missing but BID and MID
exist, infer ASK = max(0, 2*MID - BID). -/
def inferAsk (b m a : Option ℚ) : Option ℚ :=
  match a, m, b with
  | none, some mv, some bv => some (max 0 (2 * mv - bv))
  | a, _, _ => a

/-- SELL path, second block (lines 110-112): when BID is missing but MID and
ASK exist, infer BID = max(0, 2*MID - ASK). -/
def inferBidSell (b m a : Option ℚ) : Option ℚ :=
  match b, m, a with
  | none, some mv, some av => some (max 0 (2 * mv - av))
  | b, _, _ => b

/-- BUY price selection (lines 76-102): (MID + ASK)/2 when both are present,
else the fallback priority MID, then ASK, then BID; none models the
unreachable final raise. -/
def buyPrice (b m a : Option ℚ) : Option ℚ :=
  match m, a, b with
  | some mv, some av, _ => some ((mv + av) / 2)
  | some mv, none, _ => some mv
  | none, some av, _ => some av
  | none, none, some bv => some bv
  | none, none, none => none

/-- SELL price selection (lines 113-139): (BID + MID)/2 when both are
present, else the fallback priority MID, then BID, then ASK; none models the
unreachable final raise. -/
def sellPrice (b m a : Option ℚ) : Option ℚ :=
  match b, m, a with
  | some bv, some mv, _ => some ((bv + mv) / 2)
  | none, some mv, _ => some mv
  | some bv, none, _ => some bv
  | none, none, some av => some av
  | none, none, none => none

/-- ScenarioRunner.entry_price_from_snapshot (lines 22-139), on the triple
already passed through `_sf`.  isBuy models qty > 0.  Returns the normalized
(bid, mid, ask) triple kept in the local variables b, m, a together with the
returned price; none models the ValueError raised when all three fields are
missing. -/
def entry_price_from_snapshot (isBuy : Bool) (b m a : Option ℚ) :
    Option (Option ℚ × Option ℚ × Option ℚ × ℚ) :=
  if b = none ∧ m = none ∧ a = none then none
  else if isBuy then
    let bm := buyAdjustBidMid b m a
    let m2 := recomputeMid bm.1 bm.2 a
    let a2 := inferAsk bm.1 m2 a
    (buyPrice bm.1 m2 a2).map (fun p => (bm.1, m2, a2, p))
  else
    let m1 := recomputeMid b m a
    let b1 := inferBidSell b m1 a
    (sellPrice b1 m1 a).map (fun p => (b1, m1, a, p))

/-- entry_price_from_snapshot as invoked on raw dict values: each of
PX_BID / PX_MID / PX_ASK goes through the safe-float coercion `_sf` first
(lines 34-36). -/
def entry_price_from_raw (isBuy : Bool) (b m a : RawField) :
    Option (Option ℚ × Option ℚ × Option ℚ × ℚ) :=
  entry_price_from_snapshot isBuy (sf b) (sf m) (sf a)

/-- A normalized quote triple with no missing field. -/
def allFilled (t : Option ℚ × Option ℚ × Option ℚ) : Prop :=
  t.1 ≠ none ∧ t.2.1 ≠ none ∧ t.2.2 ≠ none

/-! ## Scenario grid: ScenarioRunner.generate_percent_range
(src/scenario_analysis.py, lines 387-391).  The Python list comprehension
evaluates min + i*(max-min)/(intervals-1) for i in range(intervals); the
division raises ZeroDivisionError exactly when some term is evaluated with
intervals - 1 == 0.  We model each term as Option-valued and the
comprehension with mapM, so the whole call is none exactly when Python
raises. -/

/-- One term of the comprehension: min + i*(max-min)/nm1, or none when the
division by nm1 = intervals - 1 raises ZeroDivisionError. -/
def gridTerm (mn mx : ℚ) (nm1 : ℤ) (i : ℕ) : Option ℚ :=
  if nm1 = 0 then none else some (mn + (i : ℚ) * (mx - mn) / (nm1 : ℚ))

/-- ScenarioRunner.generate_percent_range (lines 387-391): the full list
comprehension over range(intervals); none models ZeroDivisionError. -/
def generate_percent_range (mn mx : ℚ) (intervals : ℤ) : Option (List ℚ) :=
  (List.range intervals.toNat).mapM (gridTerm mn mx (intervals - 1))

/-! ## Premium override: tail of compute_pnl
(src/tools/options_pnl.py, lines 3211-3217 and 3243-3253).  The computed
total premium is sum(qty * price * 100) over the strategy legs, and when an
override is given every P&L series value is shifted by
computed_total - override. -/

/-- compute_pnl lines 3212-3217: computed_total = sum of qty * price * 100
over the strategy legs, each leg given as its (qty, price) pair. -/
def compute_total_premium (legs : List (ℚ × ℚ)) : ℚ :=
  (legs.map (fun l => l.1 * l.2 * 100)).sum

/-- compute_pnl lines 3243-3253: when an override value is supplied, shift
every value of every date's total curve by computed_total - override;
otherwise leave the curves untouched.  Curves are the date-keyed totals
dict, modelled as a list of (date, curve) pairs. -/
def apply_premium_override (totals : List (ℤ × List ℚ)) (computedTotal : ℚ)
    (override : Option ℚ) : List (ℤ × List ℚ) :=
  match override with
  | none => totals
  | some ov =>
      let shift := computedTotal - ov
      totals.map (fun p => (p.1, p.2.map (fun v => v + shift)))

/-! ## Option valuation: ScenarioRunner.time_to_maturity, forward_price,
compute_d1/d2, compute_normals, compute_option_prices and
market_value_after_move (src/scenario_analysis.py, lines 154-336), over the
real numbers.  Calendar dates are modelled as integer day numbers, so that
date comparison and day subtraction match the Python date type.  The NaN
produced by compute_d1 on a degenerate input, which propagates to the
prices, is modelled by Option. -/

/-- ScenarioRunner.time_to_maturity (lines 154-163): ACT/365 year fraction,
0 when the scenario date is on or after maturity. -/
noncomputable def time_to_maturity (maturity scenarioDate : ℤ) : ℝ :=
  if maturity - scenarioDate ≤ 0 then 0 else ((maturity - scenarioDate : ℤ) : ℝ) / 365

/-- The error function used by compute_normals through math.erf, defined by
the Gaussian integral. -/
noncomputable def erf (x : ℝ) : ℝ :=
  2 / Real.sqrt Real.pi * ∫ t in (0:ℝ)..x, Real.exp (-(t ^ 2))

/-- ScenarioRunner.compute_normals (lines 229-254): the standard normal CDF
N(x) = 0.5 * (1 + erf(x / sqrt 2)). -/
noncomputable def normCdf (x : ℝ) : ℝ := 0.5 * (1 + erf (x / Real.sqrt 2))

/-- ScenarioRunner.compute_d1 (lines 189-209): none models the NaN returned
on a degenerate input (T <= 0 or sigma <= 0 or F <= 0 or K <= 0). -/
noncomputable def compute_d1 (F K sigma T : ℝ) : Option ℝ :=
  if T ≤ 0 ∨ sigma ≤ 0 ∨ F ≤ 0 ∨ K ≤ 0 then none
  else some ((Real.log (F / K) + 0.5 * sigma * sigma * T) / (sigma * Real.sqrt T))

/-- ScenarioRunner.compute_option_prices (lines 256-289) on explicit inputs:
the (call, put) pair; d2 = d1 - sigma * sqrt T (lines 211-227), and r is the
financing rate already divided by 100.  none models the NaN propagated from
a degenerate d1. -/
noncomputable def compute_option_prices (F K sigma T r : ℝ) : Option (ℝ × ℝ) :=
  (compute_d1 F K sigma T).map fun d1v =>
    let d2v := d1v - sigma * Real.sqrt T
    (Real.exp (-(r * T)) * (F * normCdf d1v - K * normCdf d2v),
     Real.exp (-(r * T)) * (K * normCdf (-d2v) - F * normCdf (-d1v)))

/-- The data-bag fields consumed by forward_price and
market_value_after_move; MULTIPLIER is present in every leg dict built by
compute_pnl (src/tools/options_pnl.py, line 3188) but is always the literal
100 there, and market_value_after_move multiplies by the literal 100. -/
structure LegData where
  spot : ℝ
  priceMovement : ℝ
  beta : ℝ
  financeRt : ℝ
  divYield : ℝ
  ivol : ℝ
  strike : ℝ
  maturity : ℤ
  scenarioDate : ℤ
  qty : ℤ
  isCall : Bool

/-- ScenarioRunner.forward_price (lines 165-182): the shocked spot carried
forward at (r - q) over the time to maturity; financing rate and dividend
yield are percent inputs divided by 100. -/
noncomputable def forward_price (d : LegData) : ℝ :=
  d.spot * (1 + d.priceMovement * d.beta) *
    Real.exp ((d.financeRt / 100 - d.divYield / 100) *
      time_to_maturity d.maturity d.scenarioDate)

/-- ScenarioRunner._vol_decimal (lines 184-187): IVOL_MID_RT as a decimal,
divided by 100 when it reads as a percent greater than 1. -/
noncomputable def vol_decimal (d : LegData) : ℝ :=
  if d.ivol > 1 then d.ivol / 100 else d.ivol

/-- ScenarioRunner.market_value_after_move (lines 291-336): 0 past maturity,
intrinsic value times qty times 100 at maturity, and the Black-Scholes
call/put price times qty times 100 before maturity.  none models a NaN
market value propagated from a degenerate d1. -/
noncomputable def market_value_after_move (d : LegData) : Option ℝ :=
  let pam := d.spot * (1 + d.priceMovement * d.beta)
  if d.maturity < d.scenarioDate then some 0
  else if d.scenarioDate = d.maturity then
    let intrinsic := if d.isCall then max (pam - d.strike) 0 else max (d.strike - pam) 0
    some (intrinsic * (d.qty : ℝ) * 100)
  else
    (compute_option_prices (forward_price d) d.strike (vol_decimal d)
        (time_to_maturity d.maturity d.scenarioDate) (d.financeRt / 100)).map
      fun pr => (if d.isCall then pr.1 else pr.2) * (d.qty : ℝ) * 100

/-- When the divisor is non-zero no term of the comprehension fails, and the
comprehension is a plain map. -/
theorem mapM_gridTerm (mn mx : ℚ) (nm1 : ℤ) (h : nm1 ≠ 0) (l : List ℕ) :
    l.mapM (gridTerm mn mx nm1) =
      some (l.map fun i : ℕ => mn + (i : ℚ) * (mx - mn) / (nm1 : ℚ)) := by
  induction l with
  | nil => rfl
  | cons x xs ih =>
      rw [List.mapM_cons, ih]
      simp [gridTerm, h]

/-- C3: for n >= 2 the grid generator returns exactly n points, the i-th
point is min + i*(max-min)/(n-1), the first point is exactly min and the
last point is exactly max. -/
theorem generate_percent_range_points (mn mx : ℚ) (n : ℤ) (hn : 2 ≤ n) :
    ∃ l : List ℚ, generate_percent_range mn mx n = some l ∧
      (l.length : ℤ) = n ∧
      (∀ i : ℕ, ∀ hi : i < l.length,
        l.get ⟨i, hi⟩ = mn + (i : ℚ) * (mx - mn) / ((n : ℚ) - 1)) ∧
      (∀ h0 : 0 < l.length, l.get ⟨0, h0⟩ = mn) ∧
      (∀ hl : l.length - 1 < l.length, l.get ⟨l.length - 1, hl⟩ = mx) := by
  have hn0 : (0 : ℤ) ≤ n := by omega
  lift n to ℕ using hn0 with k
  have hk : 2 ≤ k := by exact_mod_cast hn
  have hne : (k : ℤ) - 1 ≠ 0 := by omega
  have hq : ((k : ℚ) - 1) ≠ 0 := by
    have h2 : (2 : ℚ) ≤ (k : ℚ) := by exact_mod_cast hk
    intro hc
    nlinarith
  have hcast : (((k : ℤ) - 1 : ℤ) : ℚ) = (k : ℚ) - 1 := by push_cast; ring
  refine ⟨(List.range k).map (fun i : ℕ => mn + (i : ℚ) * (mx - mn) / ((k : ℚ) - 1)),
    ?_, ?_, ?_, ?_, ?_⟩
  · unfold generate_percent_range
    rw [Int.toNat_natCast, mapM_gridTerm mn mx _ hne]
    simp only [hcast]
  · simp
  · intro i hi
    simp [Int.cast_natCast]
  · intro h0
    simp
  · intro hl
    have hc2 : ((k - 1 : ℕ) : ℚ) = (k : ℚ) - 1 := by
      have h1 : 1 ≤ k := by omega
      push_cast [h1]
      ring
    simp only [List.length_map, List.length_range, List.get_eq_getElem,
      List.getElem_map, List.getElem_range]
    rw [hc2]
    field_simp

/-- C3 witness: the theorem applied at min = 0, max = 1, n = 3. -/
theorem generate_percent_range_points_witness :
    ∃ l : List ℚ, generate_percent_range 0 1 3 = some l ∧
      (l.length : ℤ) = 3 ∧
      (∀ i : ℕ, ∀ hi : i < l.length,
        l.get ⟨i, hi⟩ = 0 + (i : ℚ) * (1 - 0) / ((3 : ℚ) - 1)) ∧
      (∀ h0 : 0 < l.length, l.get ⟨0, h0⟩ = 0) ∧
      (∀ hl : l.length - 1 < l.length, l.get ⟨l.length - 1, hl⟩ = 1) :=
  generate_percent_range_points 0 1 3 (by norm_num)

/-- C4 counterexample: interval_count = 0 is not rejected: the generator
returns the empty grid instead of failing. -/
theorem grid_zero_intervals_no_failure :
    generate_percent_range 0 1 0 = some [] := rfl

/-- C4 amended: only interval_count = 1 fails (the Python comprehension
divides by zero there); interval_count <= 0 silently returns the empty grid
rather than failing. -/
theorem grid_small_intervals_behavior (mn mx : ℚ) (n : ℤ) :
    generate_percent_range mn mx 1 = none ∧
    (n ≤ 0 → generate_percent_range mn mx n = some []) := by
  constructor
  · rfl
  · intro hn
    unfold generate_percent_range
    rw [Int.toNat_of_nonpos hn]
    rfl

/-- C4 witness: the amended theorem applied at min = 2, max = 5, n = -1. -/
theorem grid_small_intervals_behavior_witness :
    generate_percent_range 2 5 1 = none ∧ generate_percent_range 2 5 (-1) = some [] :=
  ⟨(grid_small_intervals_behavior 2 5 (-1)).1,
   (grid_small_intervals_behavior 2 5 (-1)).2 (by norm_num)⟩

/-- C8: with an override, every value of every date's curve is shifted by
the constant computed_total - override, where computed_total is the sum of
qty * price * 100 over the legs; an override equal to computed_total leaves
every curve unchanged, and so does the absence of an override. -/
theorem premium_override_shift (totals : List (ℤ × List ℚ)) (legs : List (ℚ × ℚ)) (ov : ℚ) :
    apply_premium_override totals (compute_total_premium legs) (some ov) =
      totals.map (fun p =>
        (p.1, p.2.map (fun v => v + (compute_total_premium legs - ov)))) ∧
    apply_premium_override totals (compute_total_premium legs)
      (some (compute_total_premium legs)) = totals ∧
    apply_premium_override totals (compute_total_premium legs) none = totals := by
  refine ⟨rfl, ?_, rfl⟩
  unfold apply_premium_override
  simp

/-- C5: in the BUY direction with BID missing and ASK present, the resolver
assumes BID = 0 and recomputes MID = (BID + ASK)/2 when MID is missing or
agrees with ASK within EPS, and otherwise infers BID = max(0, 2*MID - ASK)
keeping MID; the price is (MID + ASK)/2 in every one of these cases since
MID and ASK are then both present. -/
theorem buy_bid_missing_rules (m : Option ℚ) (a : ℚ) :
    (m = none → entry_price_from_snapshot true none m (some a) =
      some (some 0, some ((0 + a) / 2), some a, ((0 + a) / 2 + a) / 2)) ∧
    (∀ mv : ℚ, m = some mv → |mv - a| ≤ EPS →
      entry_price_from_snapshot true none m (some a) =
        some (some 0, some ((0 + a) / 2), some a, ((0 + a) / 2 + a) / 2)) ∧
    (∀ mv : ℚ, m = some mv → EPS < |mv - a| →
      entry_price_from_snapshot true none m (some a) =
        some (some (max 0 (2 * mv - a)), some mv, some a, (mv + a) / 2)) := by
  refine ⟨?_, ?_, ?_⟩
  · rintro rfl
    simp [entry_price_from_snapshot, buyAdjustBidMid, recomputeMid, inferAsk, buyPrice]
  · rintro mv rfl h
    simp [entry_price_from_snapshot, buyAdjustBidMid, recomputeMid, inferAsk, buyPrice,
      if_pos h]
  · rintro mv rfl h
    simp [entry_price_from_snapshot, buyAdjustBidMid, recomputeMid, inferAsk, buyPrice,
      if_neg (not_le.mpr h)]

/-- C5 witness: BUY with bid = None, mid = None, ask = 10 resolves to
bid = 0, mid = 5 and price = 7.5. -/
theorem buy_bid_missing_rules_witness :
    entry_price_from_snapshot true none none (some 10) =
      some (some 0, some 5, some 10, 15 / 2) := by
  have h := (buy_bid_missing_rules none 10).1 rfl
  rw [h]
  norm_num

/-- C6: the resolver raises the missing-price ValueError exactly when all
three of bid, mid, ask are unresolvable; with at least one resolvable field
it returns a price, in both directions (the late unreachable raises never
fire). -/
theorem entry_price_none_iff (isBuy : Bool) (b m a : Option ℚ) :
    entry_price_from_snapshot isBuy b m a = none ↔
      b = none ∧ m = none ∧ a = none := by
  cases isBuy <;> rcases b with _ | bv <;> rcases m with _ | mv <;> rcases a with _ | av <;>
    simp [entry_price_from_snapshot, buyAdjustBidMid, recomputeMid, inferAsk, inferBidSell,
      buyPrice, sellPrice]
  split_ifs <;> simp

/-- C1 counterexample: BUY with only the bid present (bid = 5) resolves, but
the output triple still has missing mid and ask fields, refuting resolver
completeness as stated. -/
theorem resolver_buy_bid_only_incomplete :
    entry_price_from_snapshot true (some 5) none none =
      some (some 5, none, none, 5) ∧
    ¬ allFilled (some 5, none, none) := by
  constructor
  · simp [entry_price_from_snapshot, buyAdjustBidMid, recomputeMid, inferAsk, buyPrice]
  · simp [allFilled]

/-- Resolver evaluation, BUY with all three fields present: nothing is
adjusted and the price is (MID + ASK)/2. -/
theorem resolve_buy_all (bv mv av : ℚ) :
    entry_price_from_snapshot true (some bv) (some mv) (some av) =
      some (some bv, some mv, some av, (mv + av) / 2) := by
  simp [entry_price_from_snapshot, buyAdjustBidMid, recomputeMid, inferAsk, buyPrice]
  try exact fun h => nomatch h

/-- Resolver evaluation, BUY with only the bid. -/
theorem resolve_buy_bid_only (bv : ℚ) :
    entry_price_from_snapshot true (some bv) none none =
      some (some bv, none, none, bv) := by
  simp [entry_price_from_snapshot, buyAdjustBidMid, recomputeMid, inferAsk, buyPrice]
  try exact fun h => nomatch h

/-- Resolver evaluation, BUY with only the mid. -/
theorem resolve_buy_mid_only (mv : ℚ) :
    entry_price_from_snapshot true none (some mv) none =
      some (none, some mv, none, mv) := by
  simp [entry_price_from_snapshot, buyAdjustBidMid, recomputeMid, inferAsk, buyPrice]
  try exact fun h => nomatch h

/-- Resolver evaluation, BUY with only the ask. -/
theorem resolve_buy_ask_only (av : ℚ) :
    entry_price_from_snapshot true none none (some av) =
      some (some 0, some (av / 2), some av, (av / 2 + av) / 2) := by
  simp [entry_price_from_snapshot, buyAdjustBidMid, recomputeMid, inferAsk, buyPrice]
  try exact fun h => nomatch h

/-- Resolver evaluation, BUY with bid and mid: the ask is inferred. -/
theorem resolve_buy_bid_mid (bv mv : ℚ) :
    entry_price_from_snapshot true (some bv) (some mv) none =
      some (some bv, some mv, some (max 0 (2 * mv - bv)),
        (mv + max 0 (2 * mv - bv)) / 2) := by
  simp [entry_price_from_snapshot, buyAdjustBidMid, recomputeMid, inferAsk, buyPrice]
  try exact fun h => nomatch h

/-- Resolver evaluation, BUY with bid and ask: the mid is recomputed. -/
theorem resolve_buy_bid_ask (bv av : ℚ) :
    entry_price_from_snapshot true (some bv) none (some av) =
      some (some bv, some ((bv + av) / 2), some av, ((bv + av) / 2 + av) / 2) := by
  simp [entry_price_from_snapshot, buyAdjustBidMid, recomputeMid, inferAsk, buyPrice]
  try exact fun h => nomatch h

/-- Resolver evaluation, BUY with mid and ask agreeing within EPS: the
reported mid is discarded. -/
theorem resolve_buy_mid_ask_close (mv av : ℚ) (h : |mv - av| ≤ EPS) :
    entry_price_from_snapshot true none (some mv) (some av) =
      some (some 0, some (av / 2), some av, (av / 2 + av) / 2) := by
  simp [entry_price_from_snapshot, buyAdjustBidMid, recomputeMid, inferAsk, buyPrice, h]
  try exact fun h2 => nomatch h2

/-- Resolver evaluation, BUY with mid and ask apart by more than EPS: the
bid is inferred from the trusted mid. -/
theorem resolve_buy_mid_ask_far (mv av : ℚ) (h : EPS < |mv - av|) :
    entry_price_from_snapshot true none (some mv) (some av) =
      some (some (max 0 (2 * mv - av)), some mv, some av, (mv + av) / 2) := by
  simp [entry_price_from_snapshot, buyAdjustBidMid, recomputeMid, inferAsk, buyPrice,
    not_le.mpr h]
  try exact fun h2 => nomatch h2

/-- Resolver evaluation, SELL with all three fields present. -/
theorem resolve_sell_all (bv mv av : ℚ) :
    entry_price_from_snapshot false (some bv) (some mv) (some av) =
      some (some bv, some mv, some av, (bv + mv) / 2) := by
  simp [entry_price_from_snapshot, recomputeMid, inferBidSell, sellPrice]
  try exact fun h => nomatch h

/-- Resolver evaluation, SELL with only the bid. -/
theorem resolve_sell_bid_only (bv : ℚ) :
    entry_price_from_snapshot false (some bv) none none =
      some (some bv, none, none, bv) := by
  simp [entry_price_from_snapshot, recomputeMid, inferBidSell, sellPrice]
  try exact fun h => nomatch h

/-- Resolver evaluation, SELL with only the mid. -/
theorem resolve_sell_mid_only (mv : ℚ) :
    entry_price_from_snapshot false none (some mv) none =
      some (none, some mv, none, mv) := by
  simp [entry_price_from_snapshot, recomputeMid, inferBidSell, sellPrice]
  try exact fun h => nomatch h

/-- Resolver evaluation, SELL with only the ask: nothing is filled in. -/
theorem resolve_sell_ask_only (av : ℚ) :
    entry_price_from_snapshot false none none (some av) =
      some (none, none, some av, av) := by
  simp [entry_price_from_snapshot, recomputeMid, inferBidSell, sellPrice]
  try exact fun h => nomatch h

/-- Resolver evaluation, SELL with bid and mid: the ask stays missing. -/
theorem resolve_sell_bid_mid (bv mv : ℚ) :
    entry_price_from_snapshot false (some bv) (some mv) none =
      some (some bv, some mv, none, (bv + mv) / 2) := by
  simp [entry_price_from_snapshot, recomputeMid, inferBidSell, sellPrice]
  try exact fun h => nomatch h

/-- Resolver evaluation, SELL with bid and ask: the mid is recomputed. -/
theorem resolve_sell_bid_ask (bv av : ℚ) :
    entry_price_from_snapshot false (some bv) none (some av) =
      some (some bv, some ((bv + av) / 2), some av, (bv + (bv + av) / 2) / 2) := by
  simp [entry_price_from_snapshot, recomputeMid, inferBidSell, sellPrice]
  try exact fun h => nomatch h

/-- Resolver evaluation, SELL with mid and ask: the bid is inferred. -/
theorem resolve_sell_mid_ask (mv av : ℚ) :
    entry_price_from_snapshot false none (some mv) (some av) =
      some (some (max 0 (2 * mv - av)), some mv, some av,
        (max 0 (2 * mv - av) + mv) / 2) := by
  simp [entry_price_from_snapshot, recomputeMid, inferBidSell, sellPrice]
  try exact fun h => nomatch h

/-- C1 amended: the resolved triple has no missing field exactly when the
input has, in the BUY direction, the ask or both bid and mid, and in the
SELL direction, the ask together with at least one of bid and mid; a single
bid or a single mid (and, for SELL, bid with mid, or the ask alone) leaves
missing fields in the output. -/
theorem resolver_completeness_characterization (isBuy : Bool)
    (b m a b1 m1 a1 : Option ℚ) (p : ℚ)
    (h : entry_price_from_snapshot isBuy b m a = some (b1, m1, a1, p)) :
    (isBuy = true →
      (allFilled (b1, m1, a1) ↔ (a ≠ none ∨ (b ≠ none ∧ m ≠ none)))) ∧
    (isBuy = false →
      (allFilled (b1, m1, a1) ↔ (a ≠ none ∧ (b ≠ none ∨ m ≠ none)))) := by
  cases isBuy
  · rcases b with _ | bv <;> rcases m with _ | mv <;> rcases a with _ | av
    · exact absurd h (by simp [entry_price_from_snapshot])
    · rw [resolve_sell_ask_only] at h
      simp only [Option.some_inj, Prod.mk.injEq] at h
      obtain ⟨rfl, rfl, rfl, rfl⟩ := h
      simp [allFilled]
    · rw [resolve_sell_mid_only] at h
      simp only [Option.some_inj, Prod.mk.injEq] at h
      obtain ⟨rfl, rfl, rfl, rfl⟩ := h
      simp [allFilled]
    · rw [resolve_sell_mid_ask] at h
      simp only [Option.some_inj, Prod.mk.injEq] at h
      obtain ⟨rfl, rfl, rfl, rfl⟩ := h
      simp [allFilled]
    · rw [resolve_sell_bid_only] at h
      simp only [Option.some_inj, Prod.mk.injEq] at h
      obtain ⟨rfl, rfl, rfl, rfl⟩ := h
      simp [allFilled]
    · rw [resolve_sell_bid_ask] at h
      simp only [Option.some_inj, Prod.mk.injEq] at h
      obtain ⟨rfl, rfl, rfl, rfl⟩ := h
      simp [allFilled]
    · rw [resolve_sell_bid_mid] at h
      simp only [Option.some_inj, Prod.mk.injEq] at h
      obtain ⟨rfl, rfl, rfl, rfl⟩ := h
      simp [allFilled]
    · rw [resolve_sell_all] at h
      simp only [Option.some_inj, Prod.mk.injEq] at h
      obtain ⟨rfl, rfl, rfl, rfl⟩ := h
      simp [allFilled]
  · rcases b with _ | bv <;> rcases m with _ | mv <;> rcases a with _ | av
    · exact absurd h (by simp [entry_price_from_snapshot])
    · rw [resolve_buy_ask_only] at h
      simp only [Option.some_inj, Prod.mk.injEq] at h
      obtain ⟨rfl, rfl, rfl, rfl⟩ := h
      simp [allFilled]
    · rw [resolve_buy_mid_only] at h
      simp only [Option.some_inj, Prod.mk.injEq] at h
      obtain ⟨rfl, rfl, rfl, rfl⟩ := h
      simp [allFilled]
    · rcases le_or_lt |mv - av| EPS with hc | hc
      · rw [resolve_buy_mid_ask_close mv av hc] at h
        simp only [Option.some_inj, Prod.mk.injEq] at h
        obtain ⟨rfl, rfl, rfl, rfl⟩ := h
        simp [allFilled]
      · rw [resolve_buy_mid_ask_far mv av hc] at h
        simp only [Option.some_inj, Prod.mk.injEq] at h
        obtain ⟨rfl, rfl, rfl, rfl⟩ := h
        simp [allFilled]
    · rw [resolve_buy_bid_only] at h
      simp only [Option.some_inj, Prod.mk.injEq] at h
      obtain ⟨rfl, rfl, rfl, rfl⟩ := h
      simp [allFilled]
    · rw [resolve_buy_bid_ask] at h
      simp only [Option.some_inj, Prod.mk.injEq] at h
      obtain ⟨rfl, rfl, rfl, rfl⟩ := h
      simp [allFilled]
    · rw [resolve_buy_bid_mid] at h
      simp only [Option.some_inj, Prod.mk.injEq] at h
      obtain ⟨rfl, rfl, rfl, rfl⟩ := h
      simp [allFilled]
    · rw [resolve_buy_all] at h
      simp only [Option.some_inj, Prod.mk.injEq] at h
      obtain ⟨rfl, rfl, rfl, rfl⟩ := h
      simp [allFilled]

/-- C1 witness: the amended characterization applied at a SELL input with
bid = 3, mid = 4 and no ask, whose output triple indeed keeps the ask
missing. -/
theorem resolver_completeness_characterization_witness :
    ¬ allFilled (some 3, some 4, none) ∧
    ((false : Bool) = false →
      (allFilled ((some 3 : Option ℚ), (some 4 : Option ℚ), (none : Option ℚ)) ↔
        ((none : Option ℚ) ≠ none ∧
          ((some (3:ℚ) : Option ℚ) ≠ none ∨ (some (4:ℚ) : Option ℚ) ≠ none)))) := by
  refine ⟨by simp [allFilled], ?_⟩
  exact (resolver_completeness_characterization false (some 3) (some 4) none
    (some 3) (some 4) none ((3 + 4) / 2) (resolve_sell_bid_mid 3 4)).2

/-- C9: the resolver is idempotent: feeding the resolved triple back in
returns the same triple and the same price, in both directions. -/
theorem resolver_idempotent (isBuy : Bool) (b m a b1 m1 a1 : Option ℚ) (p : ℚ)
    (h : entry_price_from_snapshot isBuy b m a = some (b1, m1, a1, p)) :
    entry_price_from_snapshot isBuy b1 m1 a1 = some (b1, m1, a1, p) := by
  cases isBuy
  · rcases b with _ | bv <;> rcases m with _ | mv <;> rcases a with _ | av
    · exact absurd h (by simp [entry_price_from_snapshot])
    · rw [resolve_sell_ask_only] at h
      simp only [Option.some_inj, Prod.mk.injEq] at h
      obtain ⟨rfl, rfl, rfl, rfl⟩ := h
      exact resolve_sell_ask_only av
    · rw [resolve_sell_mid_only] at h
      simp only [Option.some_inj, Prod.mk.injEq] at h
      obtain ⟨rfl, rfl, rfl, rfl⟩ := h
      exact resolve_sell_mid_only mv
    · rw [resolve_sell_mid_ask] at h
      simp only [Option.some_inj, Prod.mk.injEq] at h
      obtain ⟨rfl, rfl, rfl, rfl⟩ := h
      exact resolve_sell_all (max 0 (2 * mv - av)) mv av
    · rw [resolve_sell_bid_only] at h
      simp only [Option.some_inj, Prod.mk.injEq] at h
      obtain ⟨rfl, rfl, rfl, rfl⟩ := h
      exact resolve_sell_bid_only bv
    · rw [resolve_sell_bid_ask] at h
      simp only [Option.some_inj, Prod.mk.injEq] at h
      obtain ⟨rfl, rfl, rfl, rfl⟩ := h
      exact resolve_sell_all bv ((bv + av) / 2) av
    · rw [resolve_sell_bid_mid] at h
      simp only [Option.some_inj, Prod.mk.injEq] at h
      obtain ⟨rfl, rfl, rfl, rfl⟩ := h
      exact resolve_sell_bid_mid bv mv
    · rw [resolve_sell_all] at h
      simp only [Option.some_inj, Prod.mk.injEq] at h
      obtain ⟨rfl, rfl, rfl, rfl⟩ := h
      exact resolve_sell_all bv mv av
  · rcases b with _ | bv <;> rcases m with _ | mv <;> rcases a with _ | av
    · exact absurd h (by simp [entry_price_from_snapshot])
    · rw [resolve_buy_ask_only] at h
      simp only [Option.some_inj, Prod.mk.injEq] at h
      obtain ⟨rfl, rfl, rfl, rfl⟩ := h
      exact resolve_buy_all 0 (av / 2) av
    · rw [resolve_buy_mid_only] at h
      simp only [Option.some_inj, Prod.mk.injEq] at h
      obtain ⟨rfl, rfl, rfl, rfl⟩ := h
      exact resolve_buy_mid_only mv
    · rcases le_or_lt |mv - av| EPS with hc | hc
      · rw [resolve_buy_mid_ask_close mv av hc] at h
        simp only [Option.some_inj, Prod.mk.injEq] at h
        obtain ⟨rfl, rfl, rfl, rfl⟩ := h
        exact resolve_buy_all 0 (av / 2) av
      · rw [resolve_buy_mid_ask_far mv av hc] at h
        simp only [Option.some_inj, Prod.mk.injEq] at h
        obtain ⟨rfl, rfl, rfl, rfl⟩ := h
        exact resolve_buy_all (max 0 (2 * mv - av)) mv av
    · rw [resolve_buy_bid_only] at h
      simp only [Option.some_inj, Prod.mk.injEq] at h
      obtain ⟨rfl, rfl, rfl, rfl⟩ := h
      exact resolve_buy_bid_only bv
    · rw [resolve_buy_bid_ask] at h
      simp only [Option.some_inj, Prod.mk.injEq] at h
      obtain ⟨rfl, rfl, rfl, rfl⟩ := h
      exact resolve_buy_all bv ((bv + av) / 2) av
    · rw [resolve_buy_bid_mid] at h
      simp only [Option.some_inj, Prod.mk.injEq] at h
      obtain ⟨rfl, rfl, rfl, rfl⟩ := h
      exact resolve_buy_all bv mv (max 0 (2 * mv - bv))
    · rw [resolve_buy_all] at h
      simp only [Option.some_inj, Prod.mk.injEq] at h
      obtain ⟨rfl, rfl, rfl, rfl⟩ := h
      exact resolve_buy_all bv mv av

/-- C9 witness: re-resolving the output of the SELL input bid = 2, mid = 6,
ask = 8 reproduces the same triple and price. -/
theorem resolver_idempotent_witness :
    entry_price_from_snapshot false (some 2) (some 6) (some 8) =
      some (some 2, some 6, some 8, (2 + 6) / 2) :=
  resolver_idempotent false (some 2) (some 6) (some 8) (some 2) (some 6) (some 8)
    ((2 + 6) / 2) (resolve_sell_all 2 6 8)

/-- C10: a bid/mid/ask field that is present but NaN, infinite or
non-numeric is coerced to None by the safe-float step before the branching
rules run, so the resolver behaves exactly as if the field were absent; in
particular three NaN fields raise the same missing-price ValueError as three
absent fields. -/
theorem nonnumeric_price_fields_treated_as_missing (isBuy : Bool) (v b m a : RawField)
    (hv : v = RawField.nan ∨ v = RawField.posInf ∨ v = RawField.negInf ∨
      v = RawField.nonNumeric) :
    entry_price_from_raw isBuy v m a = entry_price_from_raw isBuy RawField.missing m a ∧
    entry_price_from_raw isBuy b v a = entry_price_from_raw isBuy b RawField.missing a ∧
    entry_price_from_raw isBuy b m v = entry_price_from_raw isBuy b m RawField.missing ∧
    entry_price_from_raw isBuy RawField.nan RawField.nan RawField.nan = none ∧
    entry_price_from_raw isBuy RawField.missing RawField.missing RawField.missing = none := by
  have hsf : sf v = none := by rcases hv with h | h | h | h <;> subst h <;> rfl
  refine ⟨?_, ?_, ?_, ?_, ?_⟩
  · unfold entry_price_from_raw
    rw [hsf]
    rfl
  · unfold entry_price_from_raw
    rw [hsf]
    rfl
  · unfold entry_price_from_raw
    rw [hsf]
    rfl
  · simp [entry_price_from_raw, sf, entry_price_from_snapshot]
  · simp [entry_price_from_raw, sf, entry_price_from_snapshot]

/-- C10 witness: the theorem applied with a NaN bid against mid = 2,
ask = 3. -/
theorem nonnumeric_price_fields_treated_as_missing_witness :
    entry_price_from_raw true RawField.nan (RawField.num 2) (RawField.num 3) =
      entry_price_from_raw true RawField.missing (RawField.num 2) (RawField.num 3) ∧
    entry_price_from_raw true (RawField.num 1) RawField.nan (RawField.num 3) =
      entry_price_from_raw true (RawField.num 1) RawField.missing (RawField.num 3) ∧
    entry_price_from_raw true (RawField.num 1) (RawField.num 2) RawField.nan =
      entry_price_from_raw true (RawField.num 1) (RawField.num 2) RawField.missing ∧
    entry_price_from_raw true RawField.nan RawField.nan RawField.nan = none ∧
    entry_price_from_raw true RawField.missing RawField.missing RawField.missing = none :=
  nonnumeric_price_fields_treated_as_missing true RawField.nan (RawField.num 1)
    (RawField.num 2) (RawField.num 3) (Or.inl rfl)

/-- C2: a leg evaluated strictly after its maturity is worth 0; a leg
evaluated on its maturity date is worth intrinsic value times quantity times
the contract multiplier, which the code fixes at 100 (every leg dict built
by compute_pnl carries MULTIPLIER = 100 and market_value_after_move
multiplies by the literal 100), with intrinsic = max(shocked_spot - K, 0)
for calls and max(K - shocked_spot, 0) for puts at
shocked_spot = spot*(1 + price_movement*beta); in particular spot = 100,
price_movement = 0.10, beta = 1, strike = 105, qty = 1, a call at maturity,
is worth 500. -/
theorem market_value_at_and_past_maturity (d : LegData) :
    (d.maturity < d.scenarioDate → market_value_after_move d = some 0) ∧
    (d.scenarioDate = d.maturity →
      market_value_after_move d = some
        ((if d.isCall then max (d.spot * (1 + d.priceMovement * d.beta) - d.strike) 0
          else max (d.strike - d.spot * (1 + d.priceMovement * d.beta)) 0) *
          (d.qty : ℝ) * 100)) ∧
    market_value_after_move
      { spot := 100, priceMovement := 1 / 10, beta := 1, financeRt := 0, divYield := 0,
        ivol := 1 / 5, strike := 105, maturity := 0, scenarioDate := 0, qty := 1,
        isCall := true } = some 500 := by
  refine ⟨?_, ?_, ?_⟩
  · intro h
    simp [market_value_after_move, h]
  · intro h
    simp [market_value_after_move, h]
  · norm_num [market_value_after_move, max_def]

/-- C2 witness: the theorem applied to a leg evaluated five days past its
maturity, and the closed at-maturity scenario from its third conjunct. -/
theorem market_value_at_and_past_maturity_witness :
    market_value_after_move
      { spot := 100, priceMovement := 1 / 10, beta := 1, financeRt := 0, divYield := 0,
        ivol := 1 / 5, strike := 105, maturity := 0, scenarioDate := 5, qty := 1,
        isCall := true } = some 0 ∧
    market_value_after_move
      { spot := 100, priceMovement := 1 / 10, beta := 1, financeRt := 0, divYield := 0,
        ivol := 1 / 5, strike := 105, maturity := 0, scenarioDate := 0, qty := 1,
        isCall := true } = some 500 :=
  ⟨(market_value_at_and_past_maturity
      { spot := 100, priceMovement := 1 / 10, beta := 1, financeRt := 0, divYield := 0,
        ivol := 1 / 5, strike := 105, maturity := 0, scenarioDate := 5, qty := 1,
        isCall := true }).1 (by decide),
   (market_value_at_and_past_maturity
      { spot := 100, priceMovement := 1 / 10, beta := 1, financeRt := 0, divYield := 0,
        ivol := 1 / 5, strike := 105, maturity := 0, scenarioDate := 5, qty := 1,
        isCall := true }).2.2⟩

/-- The error function is odd. -/
theorem erf_neg_eq (x : ℝ) : erf (-x) = -erf x := by
  unfold erf
  have key : (∫ t in (0:ℝ)..(-x), Real.exp (-(t ^ 2)))
      = -∫ t in (0:ℝ)..x, Real.exp (-(t ^ 2)) := by
    have h0 := intervalIntegral.integral_comp_neg
      (f := fun u : ℝ => Real.exp (-(u ^ 2))) (a := x) (b := 0)
    simp only [neg_sq, neg_zero] at h0
    rw [← h0]
    exact intervalIntegral.integral_symm 0 x
  rw [key]
  ring

/-- The normal CDF of compute_normals satisfies N(x) + N(-x) = 1. -/
theorem normCdf_add_neg (x : ℝ) : normCdf x + normCdf (-x) = 1 := by
  unfold normCdf
  rw [neg_div, erf_neg_eq]
  ring

/-- C7: put-call parity: for positive forward, strike, volatility and time,
the computed prices satisfy call - put = exp(-r*T)*(F - K) within the 1e-6
tolerance (in fact exactly, in real arithmetic). -/
theorem put_call_parity (F K sigma T r : ℝ) (hF : 0 < F) (hK : 0 < K)
    (hs : 0 < sigma) (hT : 0 < T) :
    ∃ c p : ℝ, compute_option_prices F K sigma T r = some (c, p) ∧
      |c - p - Real.exp (-(r * T)) * (F - K)| ≤ 1 / 1000000 := by
  have hguard : ¬(T ≤ 0 ∨ sigma ≤ 0 ∨ F ≤ 0 ∨ K ≤ 0) := by
    push_neg
    exact ⟨hT, hs, hF, hK⟩
  set d1v : ℝ :=
    (Real.log (F / K) + 0.5 * sigma * sigma * T) / (sigma * Real.sqrt T) with hd1
  refine ⟨Real.exp (-(r * T)) *
      (F * normCdf d1v - K * normCdf (d1v - sigma * Real.sqrt T)),
    Real.exp (-(r * T)) *
      (K * normCdf (-(d1v - sigma * Real.sqrt T)) - F * normCdf (-d1v)), ?_, ?_⟩
  · unfold compute_option_prices compute_d1
    rw [if_neg hguard]
    rfl
  · have h1 := normCdf_add_neg d1v
    have h2 := normCdf_add_neg (d1v - sigma * Real.sqrt T)
    have key : Real.exp (-(r * T)) *
        (F * normCdf d1v - K * normCdf (d1v - sigma * Real.sqrt T)) -
        Real.exp (-(r * T)) *
        (K * normCdf (-(d1v - sigma * Real.sqrt T)) - F * normCdf (-d1v)) -
        Real.exp (-(r * T)) * (F - K) = 0 := by
      linear_combination (Real.exp (-(r * T)) * F) * h1 -
        (Real.exp (-(r * T)) * K) * h2
    rw [key, abs_zero]
    norm_num

/-- C7 witness: the parity theorem applied at F = 100, K = 105, sigma = 1/2,
T = 1, r = 1/20. -/
theorem put_call_parity_witness :
    ∃ c p : ℝ, compute_option_prices 100 105 (1 / 2) 1 (1 / 20) = some (c, p) ∧
      |c - p - Real.exp (-(1 / 20 * 1)) * (100 - 105)| ≤ 1 / 1000000 :=
  put_call_parity 100 105 (1 / 2) 1 (1 / 20) (by norm_num) (by norm_num)
    (by norm_num) (by norm_num)

end OptionsStrategyTool
